import Mathlib

/-!
QwtPlotItem: attachment, z-order and change-notification protocol

A shallow embedding of `src/src/qwt_plot_item.cpp` (class `QwtPlotItem`).

* The private state `QwtPlotItem::PrivateData` becomes the structure `PrivateData`.
* Every member function that mutates the item or calls into the owning plot becomes a function
  `PrivateData → … → PrivateData × List Event`: the new state together with the list of
  observable effects, in program order.
* The owning plot (`QwtPlot`) is an external collaborator.  Calls made on it are recorded as
  events; each event that passes `this` carries the item state at the moment of the call, which
  is what the plot can read back through the item's getters.  The plot is assumed not to call
  back into the item's mutators.
* `itemChanged()` is virtual; the embedding is of the base-class implementation.  Each
  invocation of the hook is recorded by the event `Event.itemChanged`, also for a detached item.
-/

/-! ## Values of the toolkit -/

/-- Identity of a plot widget: the address held by a non-null `QwtPlot *`. -/
abbrev PlotId := Nat

/-- A C++ `double` as far as the comparison operators can tell it apart: NaN, the two
infinities, negative zero, and the finite values (every finite double is a rational number). -/
inductive Double where
  | nan
  | posInf
  | negInf
  | negZero
  | fin (q : ℚ)
  deriving DecidableEq

namespace Double

/-- The C++ `a == b` on `double`: NaN equals nothing, the two zeros are equal. -/
def eq : Double → Double → Bool
  | nan, _ => false
  | _, nan => false
  | posInf, posInf => true
  | negInf, negInf => true
  | negZero, negZero => true
  | negZero, fin q => decide (q = 0)
  | fin q, negZero => decide (q = 0)
  | fin p, fin q => decide (p = q)
  | _, _ => false

/-- The C++ `a != b` on `double`. -/
def ne (a b : Double) : Bool := !(eq a b)

/-- The C++ `a < b` on `double`: false as soon as one side is NaN, the two zeros are not
ordered, the infinities lie below and above every finite value. -/
def lt : Double → Double → Bool
  | nan, _ => false
  | _, nan => false
  | posInf, _ => false
  | _, negInf => false
  | negInf, _ => true
  | _, posInf => true
  | negZero, negZero => false
  | negZero, fin q => decide (0 < q)
  | fin q, negZero => decide (q < 0)
  | fin p, fin q => decide (p < q)

/-- The C++ `a <= b` on `double`. -/
def le (a b : Double) : Bool := lt a b || eq a b

/-- The C++ `a >= b` on `double`. -/
def ge (a b : Double) : Bool := le b a

end Double

/-- Modelled from the spec: `QwtText` (qwt_text.h is not among the sources).  The item only
stores a title and compares two titles; the text is all that is kept. -/
structure QwtText where
  text : String
  deriving DecidableEq

/-- Qt `QSize`: integer width and height. -/
structure QSize where
  width : Int
  height : Int
  deriving DecidableEq

/-- Qt `QSize::isEmpty()`: either extent is less than one. -/
def QSize.isEmpty (s : QSize) : Bool := decide (s.width < 1) || decide (s.height < 1)

/-- The axis identifiers `QwtPlot::yLeft`, `yRight`, `xBottom`, `xTop`.  The enumeration lives
in qwt_plot.h, which is not among the sources, so the four constants are a parameter of every
function that reads them. -/
structure QwtPlotAxis where
  yLeft : Int
  yRight : Int
  xBottom : Int
  xTop : Int
  deriving DecidableEq

/-- The numbering of the upstream `QwtPlot::Axis` enumeration, used for concrete evaluation. -/
def QwtPlotAxis.qwt : QwtPlotAxis := ⟨0, 1, 2, 3⟩

/-- `QwtPlotItem::ItemAttribute`. -/
inductive ItemAttribute where
  | Legend
  | AutoScale
  | Margins
  deriving DecidableEq

/-- The enumerator values `Legend = 0x01`, `AutoScale = 0x02`, `Margins = 0x04`. -/
def ItemAttribute.val : ItemAttribute → Nat
  | Legend => 0x01
  | AutoScale => 0x02
  | Margins => 0x04

/-- `QwtPlotItem::RenderHint`. -/
inductive RenderHint where
  | RenderAntialiased
  | RenderFloats
  deriving DecidableEq

/-- The enumerator values `RenderAntialiased = 0x1`, `RenderFloats = 0x2`. -/
def RenderHint.val : RenderHint → Nat
  | RenderAntialiased => 0x1
  | RenderFloats => 0x2

/-- Clearing the bits of `mask` in a 32-bit flag word: the C++ `flags &= ~mask`. -/
def clearBits (flags mask : Nat) : Nat := flags &&& (2 ^ 32 - 1 - mask)

/-! ## The item state -/

/-- `QwtPlotItem::PrivateData`.  `plot` is the nullable, non-owning `QwtPlot *`; the flag words
`attributes` and `renderHints` are the integer behind `QFlags`. -/
structure PrivateData where
  plot : Option PlotId
  isVisible : Bool
  attributes : Nat
  renderHints : Nat
  z : Double
  xAxis : Int
  yAxis : Int
  title : QwtText
  legendIconSize : QSize
  deriving DecidableEq

/-- An observable effect of a member function: an invocation of the notification hook
`itemChanged()`, or a call on a plot.  `item` is the state of `this` when the call is made. -/
inductive Event where
  | itemChanged
  | attachItem (plot : PlotId) (item : PrivateData) (attaching : Bool)
  | updateLegend (plot : PlotId) (item : PrivateData)
  | autoRefresh (plot : PlotId)
  deriving DecidableEq

/-- Whether an event is a call on a plot. -/
def Event.isPlotCall : Event → Bool
  | itemChanged => false
  | _ => true

/-- The calls on plots among a list of effects, in order. -/
def plotCalls (es : List Event) : List Event := es.filter Event.isPlotCall

/-- The number of invocations of `itemChanged()` among a list of effects. -/
def notifications (es : List Event) : Nat := es.count Event.itemChanged

/-- Qt `QRect` with integer coordinates. -/
structure QRect where
  x : Int
  y : Int
  width : Int
  height : Int
  deriving DecidableEq

/-- Qt `QRectF`: origin and extent as doubles. -/
structure QRectF where
  x : Double
  y : Double
  width : Double
  height : Double
  deriving DecidableEq

/-- What happens to an offscreen pixmap while `qwtLegendIdentifier` paints on it.  The virtual
method `drawLegendIdentifier` is recorded by its arguments; its base-class body is empty. -/
inductive PaintEvent where
  | fillTransparent
  | setAntialiasing (enabled : Bool)
  | drawLegendIdentifier (index : Int) (rect : QRect)
  | painterEnd
  deriving DecidableEq

/-- Qt `QPixmap`, known by its size and by what has been painted on it. -/
structure QPixmap where
  size : QSize
  painted : List PaintEvent
  deriving DecidableEq

/-- The values the item stores in a legend entry (Qt `QVariant`). -/
inductive QVariant where
  | text (t : QwtText)
  | pixmap (pm : QPixmap)
  deriving DecidableEq

/-- Modelled from the spec: the role tags of `QwtLegendData` (qwt_legend_data.h is not among the
sources); the spec names a title and an icon role. -/
inductive LegendRole where
  | TitleRole
  | IconRole
  deriving DecidableEq

/-- Modelled from the spec: `QwtLegendData` (qwt_legend_data.h is not among the sources), a
mapping from role tag to value. -/
structure QwtLegendData where
  map : LegendRole → Option QVariant

/-- A default-constructed `QwtLegendData`: no role has a value. -/
def QwtLegendData.empty : QwtLegendData := ⟨fun _ => none⟩

/-- Modelled from the spec: `QwtLegendData::setValue( role, data )` associates the value with
the role, replacing an earlier one. -/
def QwtLegendData.setValue (l : QwtLegendData) (role : LegendRole) (data : QVariant) :
    QwtLegendData :=
  ⟨fun r => if r = role then some data else l.map r⟩

/-- Modelled from the spec: `QwtLegendData::value( role )`, absent when nothing is stored. -/
def QwtLegendData.value (l : QwtLegendData) (role : LegendRole) : Option QVariant := l.map role

/-- Modelled from the spec: `QwtLegendData::hasRole( role )`. -/
def QwtLegendData.hasRole (l : QwtLegendData) (role : LegendRole) : Bool := (l.map role).isSome

/-- `PrivateData::PrivateData()`: the member initialisers of the private state; `title` is
default-constructed. -/
def PrivateData.init (ax : QwtPlotAxis) : PrivateData :=
  { plot := none
    isVisible := true
    attributes := 0
    renderHints := 0
    z := Double.fin 0
    xAxis := ax.xBottom
    yAxis := ax.yLeft
    title := ⟨""⟩
    legendIconSize := ⟨8, 8⟩ }

namespace QwtPlotItem

/-- `QwtPlotItem::QwtPlotItem( const QwtText &title )`. -/
def ctor (ax : QwtPlotAxis) (title : QwtText) : PrivateData :=
  { PrivateData.init ax with title := title }

/-- `QwtPlotItem::attach( QwtPlot *plot )`. -/
def attach (d : PrivateData) (plot : Option PlotId) : PrivateData × List Event :=
  if plot = d.plot then (d, [])
  else
    let e1 : List Event :=
      match d.plot with
      | some p => [Event.attachItem p d false]
      | none => []
    let d1 : PrivateData := { d with plot := plot }
    let e2 : List Event :=
      match d1.plot with
      | some q => [Event.attachItem q d1 true]
      | none => []
    (d1, e1 ++ e2)

/-- `QwtPlotItem::detach()`. -/
def detach (d : PrivateData) : PrivateData × List Event := attach d none

/-- `QwtPlotItem::plot()`. -/
def plot (d : PrivateData) : Option PlotId := d.plot

/-- `QwtPlotItem::z()`. -/
def z (d : PrivateData) : Double := d.z

/-- `QwtPlotItem::itemChanged()`, base-class implementation. -/
def itemChanged (d : PrivateData) : PrivateData × List Event :=
  match d.plot with
  | some p => (d, [Event.itemChanged, Event.updateLegend p d, Event.autoRefresh p])
  | none => (d, [Event.itemChanged])

/-- `QwtPlotItem::setZ( double z )`. -/
def setZ (d : PrivateData) (z : Double) : PrivateData × List Event :=
  if Double.ne d.z z then
    let e1 : List Event :=
      match d.plot with
      | some p => [Event.attachItem p d false]
      | none => []
    let d1 : PrivateData := { d with z := z }
    let e2 : List Event :=
      match d1.plot with
      | some p => [Event.attachItem p d1 true]
      | none => []
    let r := itemChanged d1
    (r.1, e1 ++ e2 ++ r.2)
  else (d, [])

/-- `QwtPlotItem::setTitle( const QwtText &title )`. -/
def setTitle (d : PrivateData) (title : QwtText) : PrivateData × List Event :=
  if d.title ≠ title then itemChanged { d with title := title }
  else (d, [])

/-- `QwtPlotItem::title()`. -/
def title (d : PrivateData) : QwtText := d.title

/-- `QwtPlotItem::setItemAttribute( ItemAttribute attribute, bool on )`. -/
def setItemAttribute (d : PrivateData) (attr : ItemAttribute) (enable : Bool) :
    PrivateData × List Event :=
  if decide (d.attributes &&& attr.val ≠ 0) ≠ enable then
    if enable then itemChanged { d with attributes := d.attributes ||| attr.val }
    else itemChanged { d with attributes := clearBits d.attributes attr.val }
  else (d, [])

/-- `QwtPlotItem::testItemAttribute( ItemAttribute attribute )`. -/
def testItemAttribute (d : PrivateData) (attr : ItemAttribute) : Bool :=
  decide (d.attributes &&& attr.val ≠ 0)

/-- `QwtPlotItem::setRenderHint( RenderHint hint, bool on )`. -/
def setRenderHint (d : PrivateData) (hint : RenderHint) (enable : Bool) :
    PrivateData × List Event :=
  if decide (d.renderHints &&& hint.val ≠ 0) ≠ enable then
    if enable then itemChanged { d with renderHints := d.renderHints ||| hint.val }
    else itemChanged { d with renderHints := clearBits d.renderHints hint.val }
  else (d, [])

/-- `QwtPlotItem::testRenderHint( RenderHint hint )`. -/
def testRenderHint (d : PrivateData) (hint : RenderHint) : Bool :=
  decide (d.renderHints &&& hint.val ≠ 0)

/-- `QwtPlotItem::setLegendIdentifierSize( const QSize &size )`. -/
def setLegendIdentifierSize (d : PrivateData) (size : QSize) : PrivateData × List Event :=
  ({ d with legendIconSize := size }, [])

/-- `QwtPlotItem::legendIdentifierSize()`. -/
def legendIdentifierSize (d : PrivateData) : QSize := d.legendIconSize

/-- `QwtPlotItem::setVisible( bool on )`. -/
def setVisible (d : PrivateData) (visible : Bool) : PrivateData × List Event :=
  if visible ≠ d.isVisible then itemChanged { d with isVisible := visible }
  else (d, [])

/-- `QwtPlotItem::show()`. -/
def show_ (d : PrivateData) : PrivateData × List Event := setVisible d true

/-- `QwtPlotItem::hide()`. -/
def hide (d : PrivateData) : PrivateData × List Event := setVisible d false

/-- `QwtPlotItem::isVisible()`. -/
def isVisible (d : PrivateData) : Bool := d.isVisible

/-- `QwtPlotItem::setAxes( int xAxis, int yAxis )`. -/
def setAxes (ax : QwtPlotAxis) (d : PrivateData) (xAxis yAxis : Int) :
    PrivateData × List Event :=
  let d1 : PrivateData :=
    if xAxis = ax.xBottom ∨ xAxis = ax.xTop then { d with xAxis := xAxis } else d
  let d2 : PrivateData :=
    if yAxis = ax.yLeft ∨ yAxis = ax.yRight then { d1 with yAxis := yAxis } else d1
  itemChanged d2

/-- `QwtPlotItem::setXAxis( int axis )`. -/
def setXAxis (ax : QwtPlotAxis) (d : PrivateData) (axis : Int) : PrivateData × List Event :=
  if axis = ax.xBottom ∨ axis = ax.xTop then itemChanged { d with xAxis := axis }
  else (d, [])

/-- `QwtPlotItem::setYAxis( int axis )`. -/
def setYAxis (ax : QwtPlotAxis) (d : PrivateData) (axis : Int) : PrivateData × List Event :=
  if axis = ax.yLeft ∨ axis = ax.yRight then itemChanged { d with yAxis := axis }
  else (d, [])

/-- `QwtPlotItem::xAxis()`. -/
def xAxis (d : PrivateData) : Int := d.xAxis

/-- `QwtPlotItem::yAxis()`. -/
def yAxis (d : PrivateData) : Int := d.yAxis

/-- `QwtPlotItem::~QwtPlotItem()`: the effects of the destructor body before the private
state is deleted. -/
def dtor (d : PrivateData) : PrivateData × List Event := attach d none

/-- `QwtPlotItem::rtti()`: the enumerator `Rtti_PlotItem = 0`. -/
def rtti (_d : PrivateData) : Int := 0

/-- `QwtPlotItem::boundingRect()`, base-class implementation. -/
def boundingRect (_d : PrivateData) : QRectF :=
  ⟨Double.fin 1, Double.fin 1, Double.fin (-2), Double.fin (-2)⟩

/-- The static helper `qwtLegendIdentifier( item, index, size )`: a pixmap of the given size,
filled transparent, on which the item's `drawLegendIdentifier` is invoked for the rectangle
`QRect( 0, 0, size.width(), size.height() )`. -/
def qwtLegendIdentifier (item : PrivateData) (index : Int) (size : QSize) : QPixmap :=
  { size := size
    painted :=
      [ PaintEvent.fillTransparent,
        PaintEvent.setAntialiasing (testRenderHint item RenderHint.RenderAntialiased),
        PaintEvent.drawLegendIdentifier index ⟨0, 0, size.width, size.height⟩,
        PaintEvent.painterEnd ] }

/-- `QwtPlotItem::legendData()`, base-class implementation. -/
def legendData (d : PrivateData) : List QwtLegendData :=
  let data : QwtLegendData := QwtLegendData.empty
  let titleValue : QVariant := QVariant.text (title d)
  let data := data.setValue LegendRole.TitleRole titleValue
  let data :=
    if ¬ (legendIdentifierSize d).isEmpty then
      data.setValue LegendRole.IconRole
        (QVariant.pixmap (qwtLegendIdentifier d 0 (legendIdentifierSize d)))
    else data
  [] ++ [data]

end QwtPlotItem

/-! ## Sequences of calls on one item -/

/-- A call of one of the public mutators of the item. -/
inductive Op where
  | attach (plot : Option PlotId)
  | detach
  | setZ (z : Double)
  | setVisible (visible : Bool)
  | show_
  | hide
  | setTitle (title : QwtText)
  | setAxes (xAxis yAxis : Int)
  | setXAxis (axis : Int)
  | setYAxis (axis : Int)
  | setItemAttribute (attr : ItemAttribute) (enable : Bool)
  | setRenderHint (hint : RenderHint) (enable : Bool)
  | setLegendIdentifierSize (size : QSize)

/-- One call: dispatch to the member function. -/
def step (ax : QwtPlotAxis) (d : PrivateData) : Op → PrivateData × List Event
  | Op.attach plot => QwtPlotItem.attach d plot
  | Op.detach => QwtPlotItem.detach d
  | Op.setZ z => QwtPlotItem.setZ d z
  | Op.setVisible visible => QwtPlotItem.setVisible d visible
  | Op.show_ => QwtPlotItem.show_ d
  | Op.hide => QwtPlotItem.hide d
  | Op.setTitle title => QwtPlotItem.setTitle d title
  | Op.setAxes xAxis yAxis => QwtPlotItem.setAxes ax d xAxis yAxis
  | Op.setXAxis axis => QwtPlotItem.setXAxis ax d axis
  | Op.setYAxis axis => QwtPlotItem.setYAxis ax d axis
  | Op.setItemAttribute attr enable => QwtPlotItem.setItemAttribute d attr enable
  | Op.setRenderHint hint enable => QwtPlotItem.setRenderHint d hint enable
  | Op.setLegendIdentifierSize size => QwtPlotItem.setLegendIdentifierSize d size

/-- A finite sequence of calls, one after the other: the final state and all effects in order. -/
def run (ax : QwtPlotAxis) : PrivateData → List Op → PrivateData × List Event
  | d, [] => (d, [])
  | d, op :: ops =>
    let r := step ax d op
    let r2 := run ax r.1 ops
    (r2.1, r.2 ++ r2.2)

/-- Modelled from the spec: the effect of `QwtPlot::attachItem( item, on )` on the membership of
this item in the plots (qwt_plot.cpp is not among the sources): `on = true` inserts the item
into the plot's collection, `on = false` removes it; no other call changes a membership.
`m p` says whether the item is a member of plot `p`. -/
def Event.updateMembers (m : PlotId → Bool) : Event → PlotId → Bool
  | Event.attachItem p _ attaching => fun q => if q = p then attaching else m q
  | _ => m

/-- The membership of the item after a list of effects, starting from `m`. -/
def membersFrom (m : PlotId → Bool) (es : List Event) : PlotId → Bool :=
  es.foldl Event.updateMembers m

/-- The membership of the item after a list of effects, starting as a member of no plot. -/
def members (es : List Event) : PlotId → Bool := membersFrom (fun _ => false) es

/-- The item is a member of exactly the plot it refers to. -/
def Attached (m : PlotId → Bool) (d : PrivateData) : Prop :=
  ∀ P : PlotId, m P = true ↔ d.plot = some P

/-- Both axes of the item are identifiers of their dimension: `xAxis` is `xBottom` or `xTop`
and `yAxis` is `yLeft` or `yRight`. -/
def AxesValid (ax : QwtPlotAxis) (d : PrivateData) : Prop :=
  (d.xAxis = ax.xBottom ∨ d.xAxis = ax.xTop) ∧ (d.yAxis = ax.yLeft ∨ d.yAxis = ax.yRight)

/-- A call of `setZ` or of `setVisible`. -/
inductive ZVisCall where
  | setZ (z : Double)
  | setVisible (visible : Bool)

/-- The call as an `Op`. -/
def ZVisCall.toOp : ZVisCall → Op
  | ZVisCall.setZ z => Op.setZ z
  | ZVisCall.setVisible visible => Op.setVisible visible

/-- Whether the argument of the call differs from the value the item holds, by the comparison
of the argument's C++ type. -/
def ZVisCall.differs (d : PrivateData) : ZVisCall → Bool
  | ZVisCall.setZ z => Double.ne d.z z
  | ZVisCall.setVisible visible => visible != d.isVisible

/-- The number of calls in a sequence whose argument differed from the value held just before
that call. -/
def changingCalls (ax : QwtPlotAxis) : PrivateData → List ZVisCall → Nat
  | _, [] => 0
  | d, c :: cs => (if c.differs d then 1 else 0) + changingCalls ax (step ax d c.toOp).1 cs

/-! ## Theorems -/

namespace QwtPlotItem

/-- After `attach( plot )` the item is the old item with its plot reference set to `plot`. -/
theorem attach_state (d : PrivateData) (Q : Option PlotId) :
    (attach d Q).1 = { d with plot := Q } := by
  unfold attach
  split
  · next h =>
    cases d
    simp_all
  · rfl

/-- C1: `attach` is idempotent on the same plot.  If `plot()` is already `P` (null included),
`attach( P )` has no effect at all: no call on any plot, no notification, and the item state is
returned unchanged.  Consequently, from a detached item and a non-null plot `p`, the two calls
`attach( p ); attach( p )` issue in total exactly one call, `p.attachItem( item, true )`, made
while the item already refers to `p`. -/
theorem attach_same_plot_is_noop :
    (∀ (d : PrivateData) (P : Option PlotId), plot d = P → attach d P = (d, [])) ∧
    (∀ (d : PrivateData) (p : PlotId), plot d = none →
      (attach d (some p)).2 ++ (attach (attach d (some p)).1 (some p)).2
          = [Event.attachItem p { d with plot := some p } true] ∧
        (attach (attach d (some p)).1 (some p)).1 = { d with plot := some p }) := by
  refine ⟨?_, ?_⟩
  · intro d P h
    simp only [plot] at h
    simp [attach, h]
  · intro d p h
    simp only [plot] at h
    simp [attach, h]

/-- C1, at a concrete item: a fresh item attached to plot 7 ignores a second `attach` to plot 7. -/
theorem attach_same_plot_is_noop_witness :
    attach (attach (ctor QwtPlotAxis.qwt ⟨"curve"⟩) (some 7)).1 (some 7)
      = ((attach (ctor QwtPlotAxis.qwt ⟨"curve"⟩) (some 7)).1, []) :=
  attach_same_plot_is_noop.1 _ (some 7) (by decide)

/-- C2: for an item whose current plot is `P = plot()` and a plot reference `Q ≠ P` (either may
be null), `attach( Q )` has exactly these effects, in this order: `P.attachItem( item, false )`
if `P` is non-null (the item still referring to `P`), then `Q.attachItem( item, true )` if `Q`
is non-null (the item now referring to `Q`); afterwards `plot() == Q`.  In particular
`attach( p ); attach( q )` with distinct non-null `p`, `q` makes the second call issue one
deregistration from `p` followed by one registration with `q`, and `detach()` is
`attach( NULL )`. -/
theorem attach_other_plot_calls (d : PrivateData) (Q : Option PlotId) (h : Q ≠ plot d) :
    (attach d Q).2
        = (plot d).toList.map (fun p => Event.attachItem p d false)
          ++ Q.toList.map (fun q => Event.attachItem q { d with plot := Q } true) ∧
      plot (attach d Q).1 = Q ∧
      (∀ p q : PlotId, p ≠ q →
        (attach (attach d (some p)).1 (some q)).2
          = [Event.attachItem p { d with plot := some p } false,
             Event.attachItem q { d with plot := some q } true]) ∧
      detach d = attach d none := by
  simp only [plot] at h ⊢
  refine ⟨?_, ?_, ?_, rfl⟩
  · simp only [attach, if_neg h]
    cases Q <;> cases hd : d.plot <;> simp
  · rw [attach_state]
  · intro p q hpq
    have hq : (some q : Option PlotId) ≠ some p := by
      intro e
      exact hpq (Option.some.inj e).symm
    rw [attach_state]
    simp [attach, hq]

/-- C2, at a concrete item: an item attached to plot 1 is moved to plot 2. -/
theorem attach_other_plot_calls_witness :
    (attach (attach (ctor QwtPlotAxis.qwt ⟨"curve"⟩) (some 1)).1 (some 2)).2
      = [Event.attachItem 1 { ctor QwtPlotAxis.qwt ⟨"curve"⟩ with plot := some 1 } false,
         Event.attachItem 2 { ctor QwtPlotAxis.qwt ⟨"curve"⟩ with plot := some 2 } true] :=
  (attach_other_plot_calls (attach (ctor QwtPlotAxis.qwt ⟨"curve"⟩) (some 1)).1 (some 2)
    (by decide)).1

/-- The base-class `itemChanged()` returns the item as it found it. -/
theorem itemChanged_state (d : PrivateData) : (itemChanged d).1 = d := by
  unfold itemChanged
  cases d.plot <;> rfl

/-- The effects of `itemChanged()` change no membership. -/
theorem itemChanged_members (m : PlotId → Bool) (d : PrivateData) :
    membersFrom m (itemChanged d).2 = m := by
  unfold itemChanged
  cases d.plot <;> rfl

/-- Replaying two lists of effects in a row. -/
theorem membersFrom_append (m : PlotId → Bool) (es fs : List Event) :
    membersFrom m (es ++ fs) = membersFrom (membersFrom m es) fs := by
  simp [membersFrom, List.foldl_append]

/-- A mutator that only changes fields other than `plot` and then notifies keeps `Attached`. -/
theorem attached_itemChanged (m : PlotId → Bool) (d d1 : PrivateData)
    (hp : d1.plot = d.plot) (h : Attached m d) :
    Attached (membersFrom m (itemChanged d1).2) (itemChanged d1).1 := by
  rw [itemChanged_members, itemChanged_state]
  intro P
  rw [hp]
  exact h P

/-- Every single call keeps `Attached`. -/
theorem attached_step (ax : QwtPlotAxis) (m : PlotId → Bool) (d : PrivateData) (op : Op)
    (h : Attached m d) :
    Attached (membersFrom m (step ax d op).2) (step ax d op).1 := by
  have hattach : ∀ Q : Option PlotId,
      Attached (membersFrom m (attach d Q).2) (attach d Q).1 := by
    intro Q P
    rw [attach_state]
    by_cases hq : Q = d.plot
    · have hP := h P
      simp [attach, hq, membersFrom, hP]
    · have hP := h P
      cases hQ : Q <;> cases hd : d.plot <;>
        simp_all [attach, membersFrom, Event.updateMembers] <;> aesop
  cases op with
  | attach Q => exact hattach Q
  | detach => exact hattach none
  | setZ z =>
    intro P
    have hP := h P
    simp only [step, setZ]
    split
    · simp only [membersFrom_append, itemChanged_members, itemChanged_state]
      cases hd : d.plot <;> simp_all [membersFrom, Event.updateMembers]
    · exact hP
  | setVisible visible =>
    simp only [step, setVisible]
    split
    · exact attached_itemChanged m d _ rfl h
    · exact h
  | show_ =>
    simp only [step, show_, setVisible]
    split
    · exact attached_itemChanged m d _ rfl h
    · exact h
  | hide =>
    simp only [step, hide, setVisible]
    split
    · exact attached_itemChanged m d _ rfl h
    · exact h
  | setTitle title =>
    simp only [step, setTitle]
    split
    · exact attached_itemChanged m d _ rfl h
    · exact h
  | setAxes xAxis yAxis =>
    simp only [step, setAxes]
    apply attached_itemChanged m d _ _ h
    split <;> split <;> rfl
  | setXAxis axis =>
    simp only [step, setXAxis]
    split
    · exact attached_itemChanged m d _ rfl h
    · exact h
  | setYAxis axis =>
    simp only [step, setYAxis]
    split
    · exact attached_itemChanged m d _ rfl h
    · exact h
  | setItemAttribute attr enable =>
    simp only [step, setItemAttribute]
    split
    · split
      · exact attached_itemChanged m d _ rfl h
      · exact attached_itemChanged m d _ rfl h
    · exact h
  | setRenderHint hint enable =>
    simp only [step, setRenderHint]
    split
    · split
      · exact attached_itemChanged m d _ rfl h
      · exact attached_itemChanged m d _ rfl h
    · exact h
  | setLegendIdentifierSize size =>
    exact h

/-- Every finite sequence of calls keeps `Attached`. -/
theorem attached_run (ax : QwtPlotAxis) (ops : List Op) :
    ∀ (m : PlotId → Bool) (d : PrivateData), Attached m d →
      Attached (membersFrom m (run ax d ops).2) (run ax d ops).1 := by
  induction ops with
  | nil =>
    intro m d h
    exact h
  | cons op ops ih =>
    intro m d h
    simp only [run, membersFrom_append]
    exact ih _ _ (attached_step ax m d op h)

/-- C3: an item is attached to at most one plot at a time.  Each plot's membership is a set
updated by `attachItem( item, true )` (insert) and `attachItem( item, false )` (remove).
Starting from a freshly constructed item, after every finite sequence of `attach`, `detach`,
`setZ`, `setVisible`, `show`, `hide`, `setTitle`, `setAxes`, `setXAxis`, `setYAxis`,
`setItemAttribute`, `setRenderHint` and `setLegendIdentifierSize` calls, the item is a member
of plot `P` if and only if `plot() == P`; so it is a member of no plot when `plot()` is null
and of exactly the plot `plot()` otherwise. -/
theorem member_iff_plot (ax : QwtPlotAxis) (title : QwtText) (ops : List Op) :
    (∀ P : PlotId,
      members (run ax (ctor ax title) ops).2 P = true
        ↔ plot (run ax (ctor ax title) ops).1 = some P) ∧
    (plot (run ax (ctor ax title) ops).1 = none →
      ∀ P : PlotId, members (run ax (ctor ax title) ops).2 P = false) ∧
    (∀ Q : PlotId, plot (run ax (ctor ax title) ops).1 = some Q →
      ∀ P : PlotId, members (run ax (ctor ax title) ops).2 P = true ↔ P = Q) := by
  have h0 : Attached (fun _ => false) (ctor ax title) := by
    intro P
    simp [ctor, PrivateData.init]
  have h := attached_run ax ops _ _ h0
  refine ⟨h, ?_, ?_⟩
  · intro hn P
    have hP := h P
    simp only [plot] at hn
    rw [hn] at hP
    cases hm : membersFrom (fun _ => false) (run ax (ctor ax title) ops).2 P
    · exact hm
    · exact absurd (hP.mp hm) (by simp)
  · intro Q hQ P
    have hP := h P
    simp only [plot] at hQ
    rw [hQ] at hP
    rw [show members (run ax (ctor ax title) ops).2 P
        = membersFrom (fun _ => false) (run ax (ctor ax title) ops).2 P from rfl, hP]
    constructor
    · intro e
      exact (Option.some.inj e).symm
    · intro e
      rw [e]

/-- C3, on a concrete run: attached to plot 1, re-ordered, moved to plot 3, the item is a
member of plot 3 and of no other plot. -/
theorem member_iff_plot_witness :
    ∀ P : PlotId,
      members (run QwtPlotAxis.qwt (ctor QwtPlotAxis.qwt ⟨"curve"⟩)
        [Op.attach (some 1), Op.setZ (Double.fin 2), Op.attach (some 3)]).2 P = true ↔ P = 3 :=
  (member_iff_plot QwtPlotAxis.qwt ⟨"curve"⟩
    [Op.attach (some 1), Op.setZ (Double.fin 2), Op.attach (some 3)]).2.2 3 (by decide)

/-- The base-class `itemChanged()` records exactly one invocation of the hook. -/
theorem notifications_itemChanged (d : PrivateData) : notifications (itemChanged d).2 = 1 := by
  unfold itemChanged
  cases d.plot <;> simp [notifications]

/-- The hook is among the effects of `itemChanged()`. -/
theorem mem_itemChanged (d : PrivateData) : Event.itemChanged ∈ (itemChanged d).2 := by
  unfold itemChanged
  cases d.plot <;> simp

/-- Invocations of the hook add up over concatenated effects. -/
theorem notifications_append (es fs : List Event) :
    notifications (es ++ fs) = notifications es + notifications fs := by
  simp [notifications]

/-- The effects of `setZ` hold one invocation of the hook when the argument compares unequal to
the stored value, and are empty otherwise. -/
theorem notifications_setZ (d : PrivateData) (v : Double) :
    notifications (setZ d v).2 = if Double.ne d.z v then 1 else 0 := by
  unfold setZ
  split
  · simp only [notifications_append, notifications_itemChanged]
    cases d.plot <;> simp [notifications]
  · simp [notifications]

/-- The effects of `setVisible` hold one invocation of the hook when the argument is not the
stored flag, and are empty otherwise. -/
theorem notifications_setVisible (d : PrivateData) (b : Bool) :
    notifications (setVisible d b).2 = if b != d.isVisible then 1 else 0 := by
  unfold setVisible
  split
  · next h => simp [notifications_itemChanged, h]
  · next h =>
    simp only [ne_eq, not_not] at h
    simp [notifications, h]

/-- C4, refuted as stated: a fresh item attached to plot 1 is given `z = NaN` by
`setZ( NaN )`.  A further `setZ( z() )`, a call with the current value, is then not a no-op:
`NaN != NaN` holds, so the call invokes `itemChanged()` once and issues the four plot calls
`attachItem( item, false )`, `attachItem( item, true )`, `updateLegend( item )`,
`autoRefresh()`, although the item state stays as it was. -/
theorem setZ_nan_current_value_notifies :
    z (setZ (attach (ctor QwtPlotAxis.qwt ⟨"curve"⟩) (some 1)).1 Double.nan).1 = Double.nan ∧
    (setZ (setZ (attach (ctor QwtPlotAxis.qwt ⟨"curve"⟩) (some 1)).1 Double.nan).1
        (z (setZ (attach (ctor QwtPlotAxis.qwt ⟨"curve"⟩) (some 1)).1 Double.nan).1)).1
      = (setZ (attach (ctor QwtPlotAxis.qwt ⟨"curve"⟩) (some 1)).1 Double.nan).1 ∧
    notifications
      (setZ (setZ (attach (ctor QwtPlotAxis.qwt ⟨"curve"⟩) (some 1)).1 Double.nan).1
        (z (setZ (attach (ctor QwtPlotAxis.qwt ⟨"curve"⟩) (some 1)).1 Double.nan).1)).2 = 1 ∧
    plotCalls
      (setZ (setZ (attach (ctor QwtPlotAxis.qwt ⟨"curve"⟩) (some 1)).1 Double.nan).1
        (z (setZ (attach (ctor QwtPlotAxis.qwt ⟨"curve"⟩) (some 1)).1 Double.nan).1)).2
      = [Event.attachItem 1
           (setZ (attach (ctor QwtPlotAxis.qwt ⟨"curve"⟩) (some 1)).1 Double.nan).1 false,
         Event.attachItem 1
           (setZ (attach (ctor QwtPlotAxis.qwt ⟨"curve"⟩) (some 1)).1 Double.nan).1 true,
         Event.updateLegend 1
           (setZ (attach (ctor QwtPlotAxis.qwt ⟨"curve"⟩) (some 1)).1 Double.nan).1,
         Event.autoRefresh 1] := by
  refine ⟨by decide, by decide, by decide, by decide⟩

/-- C4, amended: `setZ( v )` invokes `itemChanged()` if and only if `z() != v` in the
comparison of the C++ type `double`, under which NaN differs from every value, itself
included, and `setVisible( b )` invokes it if and only if `b != isVisible()`; it is invoked at
most once.  A call whose argument does not compare unequal has no effect at all: no
notification, no plot call, and the item state is returned unchanged; in particular
`setZ( z() )` for every `z()` other than NaN, and `setVisible( isVisible() )`.  Over any
sequence of `setZ` and `setVisible` calls the number of notifications equals the number of
calls whose argument compared unequal to the value held just before the call. -/
theorem setZ_setVisible_notify_iff_differs :
    (∀ (d : PrivateData) (v : Double),
      (Event.itemChanged ∈ (setZ d v).2 ↔ Double.ne (z d) v = true) ∧
      notifications (setZ d v).2 = (if Double.ne (z d) v then 1 else 0) ∧
      (Double.ne (z d) v = false → setZ d v = (d, []))) ∧
    (∀ (d : PrivateData) (b : Bool),
      (Event.itemChanged ∈ (setVisible d b).2 ↔ b ≠ isVisible d) ∧
      notifications (setVisible d b).2 = (if b ≠ isVisible d then 1 else 0) ∧
      (b = isVisible d → setVisible d b = (d, []))) ∧
    (∀ d : PrivateData, z d ≠ Double.nan → setZ d (z d) = (d, [])) ∧
    (∀ (ax : QwtPlotAxis) (d : PrivateData) (cs : List ZVisCall),
      notifications (run ax d (cs.map ZVisCall.toOp)).2 = changingCalls ax d cs) := by
  refine ⟨?_, ?_, ?_, ?_⟩
  · intro d v
    simp only [z]
    refine ⟨?_, notifications_setZ d v, ?_⟩
    · unfold setZ
      split
      · next h =>
        simp only [h, iff_true]
        exact List.mem_append_right _ (mem_itemChanged _)
      · next h => simp [h]
    · intro h
      simp [setZ, h]
  · intro d b
    simp only [isVisible]
    refine ⟨?_, ?_, ?_⟩
    · unfold setVisible
      split
      · next h => exact ⟨fun _ => h, fun _ => mem_itemChanged _⟩
      · next h => simp [h]
    · rw [notifications_setVisible]
      by_cases h : b = d.isVisible <;> simp [h]
    · intro h
      simp [setVisible, h]
  · intro d hz
    simp only [z] at hz ⊢
    have hne : Double.ne d.z d.z = false := by
      cases hd : d.z <;> simp_all [Double.ne, Double.eq]
    simp [setZ, hne]
  · intro ax d cs
    induction cs generalizing d with
    | nil => simp [run, changingCalls, notifications]
    | cons c cs ih =>
      simp only [List.map_cons, run, changingCalls, notifications_append, ih]
      congr 1
      cases c with
      | setZ v => simp [ZVisCall.toOp, step, ZVisCall.differs, notifications_setZ]
      | setVisible b =>
        simp [ZVisCall.toOp, step, ZVisCall.differs, notifications_setVisible]

/-- C4 as amended, at a concrete item: on a fresh item (z = 0, visible) `setZ( z() )` has no
effect, and the calls `setZ( 0 )`, `setZ( 5 )`, `setVisible( true )`, `setZ( 5 )`,
`setVisible( false )` fire two notifications. -/
theorem setZ_setVisible_notify_iff_differs_witness :
    setZ (ctor QwtPlotAxis.qwt ⟨"curve"⟩) (z (ctor QwtPlotAxis.qwt ⟨"curve"⟩))
      = (ctor QwtPlotAxis.qwt ⟨"curve"⟩, []) ∧
    notifications (run QwtPlotAxis.qwt (ctor QwtPlotAxis.qwt ⟨"curve"⟩)
      ([ZVisCall.setZ (Double.fin 0), ZVisCall.setZ (Double.fin 5), ZVisCall.setVisible true,
        ZVisCall.setZ (Double.fin 5), ZVisCall.setVisible false].map ZVisCall.toOp)).2 = 2 :=
  ⟨setZ_setVisible_notify_iff_differs.2.2.1 (ctor QwtPlotAxis.qwt ⟨"curve"⟩) (by decide),
   (setZ_setVisible_notify_iff_differs.2.2.2 QwtPlotAxis.qwt (ctor QwtPlotAxis.qwt ⟨"curve"⟩)
    [ZVisCall.setZ (Double.fin 0), ZVisCall.setZ (Double.fin 5), ZVisCall.setVisible true,
      ZVisCall.setZ (Double.fin 5), ZVisCall.setVisible false]).trans (by decide)⟩

/-- C5, refuted as stated: on a fresh item attached to plot 1 the current x axis is `xBottom`
(2 in the upstream numbering), and `setXAxis( xBottom )` nevertheless invokes `itemChanged()`,
with the plot calls `updateLegend` and `autoRefresh`; likewise `setYAxis( yLeft )`. -/
theorem setXAxis_current_axis_notifies :
    xAxis (attach (ctor QwtPlotAxis.qwt ⟨"curve"⟩) (some 1)).1 = 2 ∧
    (setXAxis QwtPlotAxis.qwt (attach (ctor QwtPlotAxis.qwt ⟨"curve"⟩) (some 1)).1 2).2
      = [Event.itemChanged,
         Event.updateLegend 1 (attach (ctor QwtPlotAxis.qwt ⟨"curve"⟩) (some 1)).1,
         Event.autoRefresh 1] ∧
    ¬ (Event.itemChanged ∈
          (setXAxis QwtPlotAxis.qwt (attach (ctor QwtPlotAxis.qwt ⟨"curve"⟩) (some 1)).1 2).2
        ↔ (2 : Int) ≠ xAxis (attach (ctor QwtPlotAxis.qwt ⟨"curve"⟩) (some 1)).1) ∧
    ¬ (Event.itemChanged ∈
          (setYAxis QwtPlotAxis.qwt (attach (ctor QwtPlotAxis.qwt ⟨"curve"⟩) (some 1)).1 0).2
        ↔ (0 : Int) ≠ yAxis (attach (ctor QwtPlotAxis.qwt ⟨"curve"⟩) (some 1)).1) := by
  refine ⟨by decide, by decide, ?_, ?_⟩ <;> decide

/-- C5, amended: for every item state and every integer `a`, `setXAxis( a )` invokes
`itemChanged()` if and only if `a` is `xBottom` or `xTop`, and `setYAxis( a )` if and only if
`a` is `yLeft` or `yRight`, whether or not `a` differs from the current axis; the hook is
invoked at most once.  So every call that changes the axis notifies, and a call with a valid
axis that is already the current one notifies as well. -/
theorem setXAxis_setYAxis_notify_iff_valid (ax : QwtPlotAxis) (d : PrivateData) (a : Int) :
    (Event.itemChanged ∈ (setXAxis ax d a).2 ↔ (a = ax.xBottom ∨ a = ax.xTop)) ∧
    (Event.itemChanged ∈ (setYAxis ax d a).2 ↔ (a = ax.yLeft ∨ a = ax.yRight)) ∧
    notifications (setXAxis ax d a).2 = (if a = ax.xBottom ∨ a = ax.xTop then 1 else 0) ∧
    notifications (setYAxis ax d a).2 = (if a = ax.yLeft ∨ a = ax.yRight then 1 else 0) ∧
    (xAxis (setXAxis ax d a).1 ≠ xAxis d → Event.itemChanged ∈ (setXAxis ax d a).2) ∧
    (yAxis (setYAxis ax d a).1 ≠ yAxis d → Event.itemChanged ∈ (setYAxis ax d a).2) := by
  refine ⟨?_, ?_, ?_, ?_, ?_, ?_⟩
  · unfold setXAxis
    split
    · next h => exact ⟨fun _ => h, fun _ => mem_itemChanged _⟩
    · next h => simp [h]
  · unfold setYAxis
    split
    · next h => exact ⟨fun _ => h, fun _ => mem_itemChanged _⟩
    · next h => simp [h]
  · unfold setXAxis
    split
    · next h => simp [notifications_itemChanged, h]
    · next h => simp [notifications, h]
  · unfold setYAxis
    split
    · next h => simp [notifications_itemChanged, h]
    · next h => simp [notifications, h]
  · unfold setXAxis
    split
    · intro _
      exact mem_itemChanged _
    · intro h
      exact absurd rfl h
  · unfold setYAxis
    split
    · intro _
      exact mem_itemChanged _
    · intro h
      exact absurd rfl h

/-- C6: for every item state and every integer `a` that is neither `xBottom` nor `xTop`,
`setXAxis( a )` has no effect at all: `xAxis()` and every other field keep their value, no
notification fires and no plot is called.  Symmetrically, for every `b` that is neither
`yLeft` nor `yRight`, `setYAxis( b )` has no effect at all. -/
theorem setXAxis_setYAxis_invalid_ignored (ax : QwtPlotAxis) (d : PrivateData) (a b : Int)
    (ha : a ≠ ax.xBottom ∧ a ≠ ax.xTop) (hb : b ≠ ax.yLeft ∧ b ≠ ax.yRight) :
    setXAxis ax d a = (d, []) ∧ setYAxis ax d b = (d, []) := by
  constructor
  · simp [setXAxis, ha.1, ha.2]
  · simp [setYAxis, hb.1, hb.2]

/-- C6, at a concrete item: an item attached to plot 1 ignores `setXAxis( 7 )` and
`setYAxis( -1 )`. -/
theorem setXAxis_setYAxis_invalid_ignored_witness :
    setXAxis QwtPlotAxis.qwt (attach (ctor QwtPlotAxis.qwt ⟨"curve"⟩) (some 1)).1 7
        = ((attach (ctor QwtPlotAxis.qwt ⟨"curve"⟩) (some 1)).1, []) ∧
      setYAxis QwtPlotAxis.qwt (attach (ctor QwtPlotAxis.qwt ⟨"curve"⟩) (some 1)).1 (-1)
        = ((attach (ctor QwtPlotAxis.qwt ⟨"curve"⟩) (some 1)).1, []) :=
  setXAxis_setYAxis_invalid_ignored QwtPlotAxis.qwt
    (attach (ctor QwtPlotAxis.qwt ⟨"curve"⟩) (some 1)).1 7 (-1)
    ⟨by decide, by decide⟩ ⟨by decide, by decide⟩

/-- The state after `setAxes( x, y )`: each axis is replaced exactly when its argument is valid. -/
theorem setAxes_state (ax : QwtPlotAxis) (d : PrivateData) (x y : Int) :
    (setAxes ax d x y).1 =
      { d with
        xAxis := if x = ax.xBottom ∨ x = ax.xTop then x else d.xAxis
        yAxis := if y = ax.yLeft ∨ y = ax.yRight then y else d.yAxis } := by
  simp only [setAxes, itemChanged_state]
  split <;> split <;> rfl

/-- C7, refuted as stated: on a fresh item attached to plot 1, `setAxes( xBottom, yLeft )`
leaves both axes as they were and yet invokes `itemChanged()`; and `setAxes( 7, 7 )`, with
both arguments invalid, leaves the item unchanged and still calls `updateLegend` and
`autoRefresh` on the plot. -/
theorem setAxes_unchanged_axes_notifies :
    (setAxes QwtPlotAxis.qwt (attach (ctor QwtPlotAxis.qwt ⟨"curve"⟩) (some 1)).1 2 0).1
        = (attach (ctor QwtPlotAxis.qwt ⟨"curve"⟩) (some 1)).1 ∧
    Event.itemChanged ∈
      (setAxes QwtPlotAxis.qwt (attach (ctor QwtPlotAxis.qwt ⟨"curve"⟩) (some 1)).1 2 0).2 ∧
    setAxes QwtPlotAxis.qwt (attach (ctor QwtPlotAxis.qwt ⟨"curve"⟩) (some 1)).1 7 7
        = ((attach (ctor QwtPlotAxis.qwt ⟨"curve"⟩) (some 1)).1,
           [Event.itemChanged,
            Event.updateLegend 1 (attach (ctor QwtPlotAxis.qwt ⟨"curve"⟩) (some 1)).1,
            Event.autoRefresh 1]) := by
  refine ⟨by decide, by decide, by decide⟩

/-- C7, amended: `setAxes( x, y )` sets `xAxis()` to `x` exactly when `x` is `xBottom` or
`xTop` and `yAxis()` to `y` exactly when `y` is `yLeft` or `yRight`, and changes no other
field.  Whenever at least one of the two arguments is valid it invokes `itemChanged()` exactly
once, also when the axes end up as they were; so every call that changes an axis notifies.
When neither argument is valid both axes keep their value. -/
theorem setAxes_valid_notifies (ax : QwtPlotAxis) (d : PrivateData) (x y : Int)
    (h : (x = ax.xBottom ∨ x = ax.xTop) ∨ (y = ax.yLeft ∨ y = ax.yRight)) :
    notifications (setAxes ax d x y).2 = 1 ∧
    (setAxes ax d x y).1 =
      { d with
        xAxis := if x = ax.xBottom ∨ x = ax.xTop then x else d.xAxis
        yAxis := if y = ax.yLeft ∨ y = ax.yRight then y else d.yAxis } ∧
    (∀ x1 y1 : Int,
      (xAxis (setAxes ax d x1 y1).1 ≠ xAxis d ∨ yAxis (setAxes ax d x1 y1).1 ≠ yAxis d) →
        notifications (setAxes ax d x1 y1).2 = 1) ∧
    (∀ x1 y1 : Int, ¬ (x1 = ax.xBottom ∨ x1 = ax.xTop) → ¬ (y1 = ax.yLeft ∨ y1 = ax.yRight) →
      xAxis (setAxes ax d x1 y1).1 = xAxis d ∧ yAxis (setAxes ax d x1 y1).1 = yAxis d) := by
  refine ⟨?_, setAxes_state ax d x y, ?_, ?_⟩
  · simp only [setAxes]
    rcases h with _ | _ <;> exact notifications_itemChanged _
  · intro x1 y1 _
    simp only [setAxes]
    exact notifications_itemChanged _
  · intro x1 y1 hx hy
    simp only [xAxis, yAxis]
    rw [setAxes_state]
    simp [hx, hy]

/-- C7 as amended, at a concrete item: on a fresh item, `setAxes( xTop, 7 )` moves the x axis,
keeps the y axis and fires one notification. -/
theorem setAxes_valid_notifies_witness :
    notifications (setAxes QwtPlotAxis.qwt (ctor QwtPlotAxis.qwt ⟨"curve"⟩) 3 7).2 = 1 ∧
    (setAxes QwtPlotAxis.qwt (ctor QwtPlotAxis.qwt ⟨"curve"⟩) 3 7).1
      = { ctor QwtPlotAxis.qwt ⟨"curve"⟩ with xAxis := 3, yAxis := 0 } :=
  ⟨(setAxes_valid_notifies QwtPlotAxis.qwt (ctor QwtPlotAxis.qwt ⟨"curve"⟩) 3 7
      (Or.inl (Or.inr (by decide)))).1,
   (setAxes_valid_notifies QwtPlotAxis.qwt (ctor QwtPlotAxis.qwt ⟨"curve"⟩) 3 7
      (Or.inl (Or.inr (by decide)))).2.1.trans (by decide)⟩

/-- C8: for an item attached to plot `P` and a `v` with `z() != v`, `setZ( v )` issues exactly
the plot calls `P.attachItem( item, false )`, `P.attachItem( item, true )`,
`P.updateLegend( item )`, `P.autoRefresh()` in that order; the item read during the
deregistration is the old one, with the old `z()`, and the item read during the registration
and the legend update holds `v`.  Afterwards `z()` is `v` and `plot()` is `P`.  For a detached
item, `setZ( v )` sets `z()` to `v` and makes no plot call. -/
theorem setZ_changed_calls (d : PrivateData) (v : Double) (hv : Double.ne (z d) v = true) :
    (∀ P : PlotId, plot d = some P →
      plotCalls (setZ d v).2
        = [Event.attachItem P d false, Event.attachItem P { d with z := v } true,
           Event.updateLegend P { d with z := v }, Event.autoRefresh P] ∧
      plot (setZ d v).1 = some P) ∧
    (plot d = none → plotCalls (setZ d v).2 = []) ∧
    z (setZ d v).1 = v ∧
    (setZ d v).1 = { d with z := v } := by
  simp only [z, plot] at hv ⊢
  refine ⟨?_, ?_, ?_, ?_⟩
  · intro P hP
    simp [setZ, hv, itemChanged, hP, plotCalls, Event.isPlotCall]
  · intro hP
    simp [setZ, hv, itemChanged, hP, plotCalls, Event.isPlotCall]
  · simp [setZ, hv, itemChanged_state]
  · simp [setZ, hv, itemChanged_state]

/-- C8, at a concrete item: a fresh item attached to plot 4 is given z = 3. -/
theorem setZ_changed_calls_witness :
    plotCalls (setZ (attach (ctor QwtPlotAxis.qwt ⟨"curve"⟩) (some 4)).1 (Double.fin 3)).2
      = [Event.attachItem 4 (attach (ctor QwtPlotAxis.qwt ⟨"curve"⟩) (some 4)).1 false,
         Event.attachItem 4
           { (attach (ctor QwtPlotAxis.qwt ⟨"curve"⟩) (some 4)).1 with z := Double.fin 3 } true,
         Event.updateLegend 4
           { (attach (ctor QwtPlotAxis.qwt ⟨"curve"⟩) (some 4)).1 with z := Double.fin 3 },
         Event.autoRefresh 4] :=
  ((setZ_changed_calls (attach (ctor QwtPlotAxis.qwt ⟨"curve"⟩) (some 4)).1 (Double.fin 3)
    (by decide)).1 4 (by decide)).1

/-- C9: the base-class `itemChanged()` never changes a field of the item.  On a detached item
it calls no plot; on an item attached to plot `P` it calls exactly `P.updateLegend( item )`
followed by `P.autoRefresh()`, and no other plot. -/
theorem itemChanged_calls (d : PrivateData) :
    (itemChanged d).1 = d ∧
    (plot d = none → plotCalls (itemChanged d).2 = []) ∧
    (∀ P : PlotId, plot d = some P →
      plotCalls (itemChanged d).2 = [Event.updateLegend P d, Event.autoRefresh P]) := by
  simp only [plot]
  refine ⟨itemChanged_state d, ?_, ?_⟩
  · intro h
    simp [itemChanged, h, plotCalls, Event.isPlotCall]
  · intro P h
    simp [itemChanged, h, plotCalls, Event.isPlotCall]

/-- C9, at a concrete item: a fresh item attached to plot 4. -/
theorem itemChanged_calls_witness :
    plotCalls (itemChanged (attach (ctor QwtPlotAxis.qwt ⟨"curve"⟩) (some 4)).1).2
      = [Event.updateLegend 4 (attach (ctor QwtPlotAxis.qwt ⟨"curve"⟩) (some 4)).1,
         Event.autoRefresh 4] :=
  (itemChanged_calls (attach (ctor QwtPlotAxis.qwt ⟨"curve"⟩) (some 4)).1).2.2 4 (by decide)

/-- C10: the base-class `legendData()` returns a list of exactly one entry.  That entry holds
the item's `title()` under `TitleRole`; it holds a value under `IconRole` if and only if the
width and the height of `legendIdentifierSize()` are both positive, and that value is then the
pixmap of `qwtLegendIdentifier`, of that size, on which `drawLegendIdentifier` was called with
index 0 and the rectangle (0, 0, width, height).  When the icon size is empty the entry holds
nothing but the title. -/
theorem legendData_single_entry (d : PrivateData) :
    ∃ e : QwtLegendData,
      legendData d = [e] ∧
      e.value LegendRole.TitleRole = some (QVariant.text (title d)) ∧
      (e.hasRole LegendRole.IconRole = true
        ↔ 0 < (legendIdentifierSize d).width ∧ 0 < (legendIdentifierSize d).height) ∧
      (0 < (legendIdentifierSize d).width ∧ 0 < (legendIdentifierSize d).height →
        e.value LegendRole.IconRole
            = some (QVariant.pixmap (qwtLegendIdentifier d 0 (legendIdentifierSize d))) ∧
          (qwtLegendIdentifier d 0 (legendIdentifierSize d)).size = legendIdentifierSize d ∧
          PaintEvent.drawLegendIdentifier 0
              ⟨0, 0, (legendIdentifierSize d).width, (legendIdentifierSize d).height⟩
            ∈ (qwtLegendIdentifier d 0 (legendIdentifierSize d)).painted) ∧
      ((legendIdentifierSize d).isEmpty = true →
        ∀ role : LegendRole, role ≠ LegendRole.TitleRole → e.value role = none) := by
  have hempty : (legendIdentifierSize d).isEmpty = true
      ↔ ¬ (0 < (legendIdentifierSize d).width ∧ 0 < (legendIdentifierSize d).height) := by
    simp only [QSize.isEmpty, Bool.or_eq_true, decide_eq_true_eq]
    omega
  by_cases hpos : 0 < (legendIdentifierSize d).width ∧ 0 < (legendIdentifierSize d).height
  · have hne : ¬ (legendIdentifierSize d).isEmpty = true := fun h => hempty.mp h hpos
    refine ⟨(QwtLegendData.empty.setValue LegendRole.TitleRole
        (QVariant.text (title d))).setValue LegendRole.IconRole
          (QVariant.pixmap (qwtLegendIdentifier d 0 (legendIdentifierSize d))),
      by simp [legendData, hne], ?_, ?_, ?_, ?_⟩
    · simp [QwtLegendData.value, QwtLegendData.setValue]
    · simp [QwtLegendData.hasRole, QwtLegendData.setValue, hpos]
    · intro _
      simp [QwtLegendData.value, QwtLegendData.setValue, qwtLegendIdentifier]
    · intro h
      exact absurd h hne
  · have he : (legendIdentifierSize d).isEmpty = true := hempty.mpr hpos
    refine ⟨QwtLegendData.empty.setValue LegendRole.TitleRole (QVariant.text (title d)),
      by simp [legendData, he], ?_, ?_, ?_, ?_⟩
    · simp [QwtLegendData.value, QwtLegendData.setValue]
    · simp [QwtLegendData.hasRole, QwtLegendData.setValue, QwtLegendData.empty, hpos]
    · intro h
      exact absurd h hpos
    · intro _ role hrole
      simp [QwtLegendData.value, QwtLegendData.setValue, QwtLegendData.empty, hrole]

/-- C10, at a concrete item: a fresh item has the icon size 8 x 8, so its single legend entry
holds an icon. -/
theorem legendData_single_entry_witness :
    ∃ e : QwtLegendData,
      legendData (ctor QwtPlotAxis.qwt ⟨"curve"⟩) = [e] ∧
      e.value LegendRole.TitleRole = some (QVariant.text ⟨"curve"⟩) ∧
      e.hasRole LegendRole.IconRole = true :=
  match legendData_single_entry (ctor QwtPlotAxis.qwt ⟨"curve"⟩) with
  | ⟨e, h1, h2, h3, _⟩ => ⟨e, h1, h2, h3.mpr ⟨by decide, by decide⟩⟩

/-- C11: destruction forces detachment and never touches a plot the item has already left.
Destroying an item attached to plot `P` issues exactly one call, `P.attachItem( item, false )`,
and nothing else; destroying a detached item issues no call at all.  Hence, for every item
state, the destruction that follows a `detach()` invokes no method on any plot, the previously
owning one included. -/
theorem dtor_calls (d : PrivateData) :
    (∀ P : PlotId, plot d = some P → (dtor d).2 = [Event.attachItem P d false]) ∧
    (plot d = none → (dtor d).2 = []) ∧
    (dtor (detach d).1).2 = [] ∧
    plot (dtor d).1 = none := by
  simp only [plot, dtor, detach]
  refine ⟨?_, ?_, ?_, ?_⟩
  · intro P h
    simp [attach, h]
  · intro h
    simp [attach, h]
  · rw [attach_state]
    simp [attach]
  · rw [attach_state]

/-- C11, at a concrete item: a fresh item attached to plot 4 is destroyed. -/
theorem dtor_calls_witness :
    (dtor (attach (ctor QwtPlotAxis.qwt ⟨"curve"⟩) (some 4)).1).2
      = [Event.attachItem 4 (attach (ctor QwtPlotAxis.qwt ⟨"curve"⟩) (some 4)).1 false] :=
  (dtor_calls (attach (ctor QwtPlotAxis.qwt ⟨"curve"⟩) (some 4)).1).1 4 (by decide)

/-- C12: the base-class `boundingRect()` returns, for every item state, the rectangle with
origin (1.0, 1.0), width -2.0 and height -2.0.  Its width and its height are strictly negative,
so it differs, already in its width and in its height, from every rectangle whose width and
height are both non-negative. -/
theorem boundingRect_invalid (d : PrivateData) :
    boundingRect d = ⟨Double.fin 1, Double.fin 1, Double.fin (-2), Double.fin (-2)⟩ ∧
    Double.lt (boundingRect d).width (Double.fin 0) = true ∧
    Double.lt (boundingRect d).height (Double.fin 0) = true ∧
    (∀ r : QRectF,
      Double.ge r.width (Double.fin 0) = true → Double.ge r.height (Double.fin 0) = true →
        boundingRect d ≠ r ∧
        Double.ne (boundingRect d).width r.width = true ∧
        Double.ne (boundingRect d).height r.height = true) := by
  have key : ∀ w : Double, Double.ge w (Double.fin 0) = true →
      Double.ne (Double.fin (-2)) w = true ∧ Double.fin (-2) ≠ w := by
    intro w hw
    cases w with
    | nan => simp [Double.ge, Double.le, Double.lt, Double.eq] at hw
    | posInf => simp [Double.ne, Double.eq]
    | negInf => simp [Double.ge, Double.le, Double.lt, Double.eq] at hw
    | negZero => simp [Double.ne, Double.eq]
    | fin q =>
      simp only [Double.ge, Double.le, Double.lt, Double.eq, Bool.or_eq_true,
        decide_eq_true_eq] at hw
      have hq : (0 : ℚ) ≤ q := by
        rcases hw with h | h
        · exact le_of_lt h
        · exact le_of_eq h
      have hne : (-2 : ℚ) ≠ q := by
        intro e
        rw [← e] at hq
        norm_num at hq
      refine ⟨by simp [Double.ne, Double.eq, hne], ?_⟩
      intro e
      exact hne (Double.fin.inj e)
  have hneg : Double.lt (Double.fin (-2)) (Double.fin 0) = true := by decide
  refine ⟨rfl, hneg, hneg, ?_⟩
  intro r hw hh
  refine ⟨?_, (key r.width hw).1, (key r.height hh).1⟩
  intro e
  have hwid : (boundingRect d).width = r.width := by rw [e]
  exact (key r.width hw).2 hwid

/-- C12, at a concrete rectangle: the sentinel differs from the zero-area rectangle at the
origin. -/
theorem boundingRect_invalid_witness :
    boundingRect (ctor QwtPlotAxis.qwt ⟨"curve"⟩)
      ≠ ⟨Double.fin 0, Double.fin 0, Double.fin 0, Double.fin 0⟩ :=
  ((boundingRect_invalid (ctor QwtPlotAxis.qwt ⟨"curve"⟩)).2.2.2
    ⟨Double.fin 0, Double.fin 0, Double.fin 0, Double.fin 0⟩ (by decide) (by decide)).1

/-- C13: no-op sets are suppressed for the title and the flag mutators.  For every item state,
`setTitle( t )` invokes `itemChanged()` if and only if `t != title()`;
`setItemAttribute( a, on )` invokes it if and only if `testItemAttribute( a ) != on`;
`setRenderHint( h, on )` invokes it if and only if `testRenderHint( h ) != on`; each invokes it
at most once.  When no notification fires the call has no effect at all: the item state is
returned unchanged and no plot is called. -/
theorem setTitle_setFlags_notify_iff_differs (d : PrivateData) :
    (∀ t : QwtText,
      (Event.itemChanged ∈ (setTitle d t).2 ↔ t ≠ title d) ∧
      notifications (setTitle d t).2 = (if t ≠ title d then 1 else 0) ∧
      (Event.itemChanged ∉ (setTitle d t).2 → setTitle d t = (d, []))) ∧
    (∀ (a : ItemAttribute) (enable : Bool),
      (Event.itemChanged ∈ (setItemAttribute d a enable).2 ↔ testItemAttribute d a ≠ enable) ∧
      notifications (setItemAttribute d a enable).2
        = (if testItemAttribute d a ≠ enable then 1 else 0) ∧
      (Event.itemChanged ∉ (setItemAttribute d a enable).2 →
        setItemAttribute d a enable = (d, []))) ∧
    (∀ (h : RenderHint) (enable : Bool),
      (Event.itemChanged ∈ (setRenderHint d h enable).2 ↔ testRenderHint d h ≠ enable) ∧
      notifications (setRenderHint d h enable).2
        = (if testRenderHint d h ≠ enable then 1 else 0) ∧
      (Event.itemChanged ∉ (setRenderHint d h enable).2 →
        setRenderHint d h enable = (d, []))) := by
  refine ⟨?_, ?_, ?_⟩
  · intro t
    simp only [title]
    unfold setTitle
    by_cases ht : d.title ≠ t
    · have ht2 : t ≠ d.title := fun e => ht e.symm
      simp only [if_pos ht, if_pos ht2, notifications_itemChanged]
      exact ⟨⟨fun _ => ht2, fun _ => mem_itemChanged _⟩, trivial,
        fun hn => absurd (mem_itemChanged _) hn⟩
    · have ht2 : ¬ t ≠ d.title := fun e => ht (fun e2 => e e2.symm)
      simp only [if_neg ht, if_neg ht2]
      exact ⟨⟨fun hm => absurd hm (List.not_mem_nil _), fun hne => absurd hne ht2⟩,
        by simp [notifications], fun _ => trivial⟩
  · intro a enable
    simp only [testItemAttribute]
    unfold setItemAttribute
    by_cases hg : decide (d.attributes &&& a.val ≠ 0) ≠ enable
    · simp only [if_pos hg]
      cases enable
      · simp only [Bool.false_eq_true, if_false, notifications_itemChanged]
        exact ⟨⟨fun _ => hg, fun _ => mem_itemChanged _⟩, trivial,
          fun hn => absurd (mem_itemChanged _) hn⟩
      · simp only [if_true, notifications_itemChanged]
        exact ⟨⟨fun _ => hg, fun _ => mem_itemChanged _⟩, trivial,
          fun hn => absurd (mem_itemChanged _) hn⟩
    · simp only [if_neg hg]
      exact ⟨⟨fun hm => absurd hm (List.not_mem_nil _), fun hne => absurd hne hg⟩,
        by simp [notifications], fun _ => trivial⟩
  · intro h enable
    simp only [testRenderHint]
    unfold setRenderHint
    by_cases hg : decide (d.renderHints &&& h.val ≠ 0) ≠ enable
    · simp only [if_pos hg]
      cases enable
      · simp only [Bool.false_eq_true, if_false, notifications_itemChanged]
        exact ⟨⟨fun _ => hg, fun _ => mem_itemChanged _⟩, trivial,
          fun hn => absurd (mem_itemChanged _) hn⟩
      · simp only [if_true, notifications_itemChanged]
        exact ⟨⟨fun _ => hg, fun _ => mem_itemChanged _⟩, trivial,
          fun hn => absurd (mem_itemChanged _) hn⟩
    · simp only [if_neg hg]
      exact ⟨⟨fun hm => absurd hm (List.not_mem_nil _), fun hne => absurd hne hg⟩,
        by simp [notifications], fun _ => trivial⟩

/-- C13, at a concrete item: on a fresh item attached to plot 4, setting the title it already
has, clearing the attribute `Legend` that is not set and clearing the hint `RenderAntialiased`
that is not set change nothing and call nothing. -/
theorem setTitle_setFlags_notify_iff_differs_witness :
    setTitle (attach (ctor QwtPlotAxis.qwt ⟨"curve"⟩) (some 4)).1 ⟨"curve"⟩
        = ((attach (ctor QwtPlotAxis.qwt ⟨"curve"⟩) (some 4)).1, []) ∧
    setItemAttribute (attach (ctor QwtPlotAxis.qwt ⟨"curve"⟩) (some 4)).1
        ItemAttribute.Legend false
        = ((attach (ctor QwtPlotAxis.qwt ⟨"curve"⟩) (some 4)).1, []) ∧
    setRenderHint (attach (ctor QwtPlotAxis.qwt ⟨"curve"⟩) (some 4)).1
        RenderHint.RenderAntialiased false
        = ((attach (ctor QwtPlotAxis.qwt ⟨"curve"⟩) (some 4)).1, []) :=
  ⟨((setTitle_setFlags_notify_iff_differs
      (attach (ctor QwtPlotAxis.qwt ⟨"curve"⟩) (some 4)).1).1 ⟨"curve"⟩).2.2 (by decide),
   ((setTitle_setFlags_notify_iff_differs
      (attach (ctor QwtPlotAxis.qwt ⟨"curve"⟩) (some 4)).1).2.1
        ItemAttribute.Legend false).2.2 (by decide),
   ((setTitle_setFlags_notify_iff_differs
      (attach (ctor QwtPlotAxis.qwt ⟨"curve"⟩) (some 4)).1).2.2
        RenderHint.RenderAntialiased false).2.2 (by decide)⟩

/-- Every single call keeps both axes valid. -/
theorem axesValid_step (ax : QwtPlotAxis) (d : PrivateData) (op : Op) (h : AxesValid ax d) :
    AxesValid ax (step ax d op).1 := by
  cases op with
  | attach Q =>
    simp only [step, attach_state]
    exact h
  | detach =>
    simp only [step, detach, attach_state]
    exact h
  | setZ z =>
    simp only [step, setZ]
    split
    · simp only [itemChanged_state]
      exact h
    · exact h
  | setVisible visible =>
    simp only [step, setVisible]
    split
    · simp only [itemChanged_state]
      exact h
    · exact h
  | show_ =>
    simp only [step, show_, setVisible]
    split
    · simp only [itemChanged_state]
      exact h
    · exact h
  | hide =>
    simp only [step, hide, setVisible]
    split
    · simp only [itemChanged_state]
      exact h
    · exact h
  | setTitle title =>
    simp only [step, setTitle]
    split
    · simp only [itemChanged_state]
      exact h
    · exact h
  | setAxes xAxis yAxis =>
    simp only [step, setAxes_state]
    constructor
    · show (if xAxis = ax.xBottom ∨ xAxis = ax.xTop then xAxis else d.xAxis) = ax.xBottom
        ∨ (if xAxis = ax.xBottom ∨ xAxis = ax.xTop then xAxis else d.xAxis) = ax.xTop
      split
      · next hx => exact hx
      · exact h.1
    · show (if yAxis = ax.yLeft ∨ yAxis = ax.yRight then yAxis else d.yAxis) = ax.yLeft
        ∨ (if yAxis = ax.yLeft ∨ yAxis = ax.yRight then yAxis else d.yAxis) = ax.yRight
      split
      · next hy => exact hy
      · exact h.2
  | setXAxis axis =>
    simp only [step, setXAxis]
    split
    · next hx =>
      simp only [itemChanged_state]
      exact ⟨hx, h.2⟩
    · exact h
  | setYAxis axis =>
    simp only [step, setYAxis]
    split
    · next hy =>
      simp only [itemChanged_state]
      exact ⟨h.1, hy⟩
    · exact h
  | setItemAttribute attr enable =>
    simp only [step, setItemAttribute]
    split
    · split
      · simp only [itemChanged_state]
        exact h
      · simp only [itemChanged_state]
        exact h
    · exact h
  | setRenderHint hint enable =>
    simp only [step, setRenderHint]
    split
    · split
      · simp only [itemChanged_state]
        exact h
      · simp only [itemChanged_state]
        exact h
    · exact h
  | setLegendIdentifierSize size =>
    exact h

/-- Every finite sequence of calls keeps both axes valid. -/
theorem axesValid_run (ax : QwtPlotAxis) (ops : List Op) :
    ∀ d : PrivateData, AxesValid ax d → AxesValid ax (run ax d ops).1 := by
  induction ops with
  | nil =>
    intro d h
    exact h
  | cons op ops ih =>
    intro d h
    simp only [run]
    exact ih _ (axesValid_step ax d op h)

/-- C14: axis validity is an invariant of the item.  A freshly constructed item has
`xAxis() == xBottom` and `yAxis() == yLeft`, and after every finite sequence of `setAxes`,
`setXAxis`, `setYAxis` with arbitrary integer arguments and of the other mutators (`attach`,
`detach`, `setZ`, `setVisible`, `show`, `hide`, `setTitle`, `setItemAttribute`,
`setRenderHint`, `setLegendIdentifierSize`), `xAxis()` is one of `xBottom`, `xTop` and
`yAxis()` is one of `yLeft`, `yRight`.  Moreover `setAxes( x, y )` treats the two components
independently: `xAxis()` becomes `x` exactly when `x` is valid and is otherwise unchanged,
and likewise for `y`, whatever the validity of the other argument. -/
theorem axes_always_valid (ax : QwtPlotAxis) (title : QwtText) (ops : List Op) :
    (xAxis (ctor ax title) = ax.xBottom ∧ yAxis (ctor ax title) = ax.yLeft) ∧
    ((xAxis (run ax (ctor ax title) ops).1 = ax.xBottom
        ∨ xAxis (run ax (ctor ax title) ops).1 = ax.xTop) ∧
      (yAxis (run ax (ctor ax title) ops).1 = ax.yLeft
        ∨ yAxis (run ax (ctor ax title) ops).1 = ax.yRight)) ∧
    (∀ (d : PrivateData) (x y : Int),
      xAxis (setAxes ax d x y).1 = (if x = ax.xBottom ∨ x = ax.xTop then x else xAxis d) ∧
      yAxis (setAxes ax d x y).1 = (if y = ax.yLeft ∨ y = ax.yRight then y else yAxis d)) := by
  have h0 : AxesValid ax (ctor ax title) := ⟨Or.inl rfl, Or.inl rfl⟩
  refine ⟨⟨rfl, rfl⟩, axesValid_run ax ops _ h0, ?_⟩
  intro d x y
  simp only [xAxis, yAxis, setAxes_state]
  exact ⟨trivial, trivial⟩

/-- C14, on a concrete run: a fresh item is given the invalid x axis 7, then the axes
(`xTop`, 9); its x axis is `xTop` and its y axis is still `yLeft`. -/
theorem axes_always_valid_witness :
    (xAxis (run QwtPlotAxis.qwt (ctor QwtPlotAxis.qwt ⟨"curve"⟩)
        [Op.setXAxis 7, Op.setAxes 3 9]).1 = 3 ∧
      yAxis (run QwtPlotAxis.qwt (ctor QwtPlotAxis.qwt ⟨"curve"⟩)
        [Op.setXAxis 7, Op.setAxes 3 9]).1 = 0) ∧
    ((xAxis (run QwtPlotAxis.qwt (ctor QwtPlotAxis.qwt ⟨"curve"⟩)
          [Op.setXAxis 7, Op.setAxes 3 9]).1 = QwtPlotAxis.qwt.xBottom
        ∨ xAxis (run QwtPlotAxis.qwt (ctor QwtPlotAxis.qwt ⟨"curve"⟩)
          [Op.setXAxis 7, Op.setAxes 3 9]).1 = QwtPlotAxis.qwt.xTop) ∧
      (yAxis (run QwtPlotAxis.qwt (ctor QwtPlotAxis.qwt ⟨"curve"⟩)
          [Op.setXAxis 7, Op.setAxes 3 9]).1 = QwtPlotAxis.qwt.yLeft
        ∨ yAxis (run QwtPlotAxis.qwt (ctor QwtPlotAxis.qwt ⟨"curve"⟩)
          [Op.setXAxis 7, Op.setAxes 3 9]).1 = QwtPlotAxis.qwt.yRight)) :=
  ⟨⟨by decide, by decide⟩,
   (axes_always_valid QwtPlotAxis.qwt ⟨"curve"⟩ [Op.setXAxis 7, Op.setAxes 3 9]).2.1⟩

/-- After `setItemAttribute( a, on )` the attribute tests as `on`, and after
`setRenderHint( h, on )` the hint tests as `on`: the flag mutators do set and clear the bit. -/
theorem testFlag_after_set (d : PrivateData) (enable : Bool) :
    (∀ a : ItemAttribute, testItemAttribute (setItemAttribute d a enable).1 a = enable) ∧
    (∀ h : RenderHint, testRenderHint (setRenderHint d h enable).1 h = enable) := by
  have hclear : ∀ x m : Nat, (2 ^ 32 - 1 - m) &&& m = 0 → clearBits x m &&& m = 0 := by
    intro x m hm
    unfold clearBits
    rw [Nat.and_assoc, hm, Nat.and_zero]
  have hset : ∀ (x m i : Nat), m.testBit i = true → (x ||| m) &&& m ≠ 0 := by
    intro x m i hm e
    have hb := congrArg (fun n => n.testBit i) e
    simp [hm] at hb
  constructor
  · intro a
    unfold setItemAttribute testItemAttribute
    split
    · cases enable
      · simp only [Bool.false_eq_true, if_false, itemChanged_state]
        have h0 : clearBits d.attributes a.val &&& a.val = 0 :=
          hclear _ _ (by cases a <;> decide)
        simp [h0]
      · simp only [if_true, itemChanged_state]
        have h1 : (d.attributes ||| a.val) &&& a.val ≠ 0 := by
          cases a
          · exact hset _ _ 0 (by decide)
          · exact hset _ _ 1 (by decide)
          · exact hset _ _ 2 (by decide)
        simp [h1]
    · next hg =>
      simp only [ne_eq, not_not] at hg
      exact hg
  · intro h
    unfold setRenderHint testRenderHint
    split
    · cases enable
      · simp only [Bool.false_eq_true, if_false, itemChanged_state]
        have h0 : clearBits d.renderHints h.val &&& h.val = 0 :=
          hclear _ _ (by cases h <;> decide)
        simp [h0]
      · simp only [if_true, itemChanged_state]
        have h1 : (d.renderHints ||| h.val) &&& h.val ≠ 0 := by
          cases h
          · exact hset _ _ 0 (by decide)
          · exact hset _ _ 1 (by decide)
        simp [h1]
    · next hg =>
      simp only [ne_eq, not_not] at hg
      exact hg

end QwtPlotItem
